import Mathlib

/-!
Verification of the travel-experience workflow orchestration core.

Shallow embedding of the Python sources under `app/core/langgraph/` into
Lean 4.  Python dictionaries of JSON-like values are modelled either
extensionally (`PyDict`, a function from string keys to optional values)
or, where emptiness tests matter, as association lists.  External
collaborators (the LLM provider, the filesystem, `json.loads`) are
parameters of the embedded functions; the control flow, key names and
literal payloads are translated from the source.

Where a module contains two successive definitions of the same name
(Python re-definition: the later one shadows the earlier), the embedding
follows the later, effective definition, as the importing modules do.
-/

set_option maxRecDepth 8192

namespace TravelWorkflow

/-- JSON-like Python values as they appear in the workflow state and in
node outputs.  `obj` is an opaque structured value (e.g. a pydantic model
or an LLM response payload) identified by a provenance tag; floats only
occur as literal constants in this code base, so they are represented
exactly as rationals. -/
inductive PyVal where
  | none
  | bool (b : Bool)
  | int (n : Int)
  | float (q : ℚ)
  | str (s : String)
  | listStr (xs : List String)
  | obj (tag : String)
deriving DecidableEq, Repr

/-- A Python dict with string keys, modelled extensionally: `d k = some v`
means key `k` is present with value `v`. -/
def PyDict (V : Type) := String → Option V

/-- The empty dict. -/
def emptyDict {V : Type} : PyDict V := fun _ => Option.none

/-- Python dict-unpacking merge of two dicts (as in a dict literal that
unpacks `a` first and `b` second): keys of `b` win over keys of `a`. -/
def pyUnion {V : Type} (a b : PyDict V) : PyDict V :=
  fun k => (b k).orElse fun _ => a k

/-- Truthiness of an optional Python string: `None` and the empty string
are falsy, every other string is truthy. -/
def truthyStr : Option String → Bool
  | Option.none => false
  | Option.some s => !s.data.isEmpty

/-! ## Combine node (`workflow.py`, `combine_node`) -/

/-- The slice of the shared workflow state read by `combine_node`.
`basic_info`, `tags_info` and `travel_plan` hold the field dict that
`model_dump()` would produce for the stored pydantic model, or
`Option.none` when the state key is absent/`None` (in which case the
source skips `model_dump` and contributes `\x7b\x7d`).
`classification_type` is the value of `state.get("classification_type")`,
with `PyVal.none` standing for a missing key. -/
structure CombineState where
  basic_info : Option (PyDict PyVal)
  tags_info : Option (PyDict PyVal)
  travel_plan : Option (PyDict PyVal)
  classification_type : PyVal

/-- The dumped fields of an optional model: `model_dump()` when present,
the empty dict when absent (`if x else` branch of the source). -/
def modelDumpOr (d : Option (PyDict PyVal)) : PyDict PyVal :=
  d.getD emptyDict

/-- Embedding of `combine_node` (`workflow.py` lines 100-114): the
`experience` dict literal unpacks `basic_info`, then `travel_plan`, then
`tags_info`, and finally sets the `plan_type` key to
`classification_type` (last writer wins). -/
def combine_node (s : CombineState) : PyDict PyVal :=
  let base :=
    pyUnion (pyUnion (modelDumpOr s.basic_info) (modelDumpOr s.travel_plan))
      (modelDumpOr s.tags_info)
  fun k => if k = "plan_type" then Option.some s.classification_type else base k

/-- C1: `combine_node` is a pure merge: the produced experience has
`plan_type = classification_type`; every other key carries the union of
the `basic_info`, `travel_plan` and `tags_info` fields (later sections
winning on overlap, per dict unpacking order); and replacing any absent
(`None`) section by an empty record leaves the experience unchanged.
The embedding is a total function, so the node never raises. -/
theorem combine_node_c1 (s : CombineState) :
    (combine_node s "plan_type" = Option.some s.classification_type) ∧
    (∀ k, k ≠ "plan_type" →
      combine_node s k =
        ((modelDumpOr s.tags_info k).orElse fun _ =>
          ((modelDumpOr s.travel_plan k).orElse fun _ =>
            modelDumpOr s.basic_info k))) ∧
    (combine_node { s with basic_info := Option.some emptyDict } =
      combine_node { s with basic_info := Option.none }) ∧
    (combine_node { s with travel_plan := Option.some emptyDict } =
      combine_node { s with travel_plan := Option.none }) ∧
    (combine_node { s with tags_info := Option.some emptyDict } =
      combine_node { s with tags_info := Option.none }) := by
  refine ⟨?_, ?_, rfl, rfl, rfl⟩
  · simp [combine_node]
  · intro k hk
    simp [combine_node, pyUnion, hk]

/-- Example combine input used to witness `combine_node_c1`. -/
def combineExample : CombineState :=
  { basic_info := Option.some fun k =>
      if k = "caption" then Option.some (PyVal.str "City walk") else Option.none
    tags_info := Option.none
    travel_plan := Option.none
    classification_type := PyVal.str "unmanaged" }

/-- Witness for `combine_node_c1` at a concrete state and key. -/
theorem combine_node_c1_witness :
    combine_node combineExample "caption" =
      ((modelDumpOr combineExample.tags_info "caption").orElse fun _ =>
        ((modelDumpOr combineExample.travel_plan "caption").orElse fun _ =>
          modelDumpOr combineExample.basic_info "caption")) :=
  (combine_node_c1 combineExample).2.1 "caption" (by decide)

/-! ## Parallel branch nodes (`basic_info.py`, `plan_agent.py`) -/

/-- Embedding of `BasicInfoAgent.execute` (`basic_info.py` lines
149-163).  When `extracted_text` is falsy the node returns the update
`next = "extraction"`; otherwise it performs the structured call and the
tagging sub-flow and returns the `basic_info` and `tags_info` keys.  The
two LLM responses are parameters. -/
def BasicInfoAgent.execute (basicResp tagsResp : PyVal)
    (extracted_text : Option String) : List (String × PyVal) :=
  if truthyStr extracted_text = false then
    [("next", PyVal.str "extraction")]
  else
    [("basic_info", basicResp), ("tags_info", tagsResp)]

/-- Embedding of `PlanAgent.execute` (`plan_agent.py` lines 74-92). -/
def PlanAgent.execute (planResp : PyVal)
    (extracted_text : Option String) : List (String × PyVal) :=
  if truthyStr extracted_text = false then
    [("next", PyVal.str "extraction")]
  else
    [("travel_plan", planResp)]

/-- The key set of a partial state update. -/
def updateKeys (u : List (String × PyVal)) : List String :=
  u.map Prod.fst

/-- C2 counterexample: on a state with no `extracted_text`, both branch
nodes return the update `next = "extraction"`, so their key sets overlap
on `next` — the claimed disjointness fails at this concrete input. -/
theorem branch_disjoint_c2_counterexample :
    ¬ List.Disjoint
      (updateKeys (BasicInfoAgent.execute PyVal.none PyVal.none Option.none))
      (updateKeys (PlanAgent.execute PyVal.none Option.none)) := by
  intro h
  exact h (a := "next") (by decide) (by decide)

/-- C2 (amended): whenever `extracted_text` is present and non-empty —
which is the case on every run that reaches the fan-out — the two branch
nodes write disjoint key sets (`basic_info`/`tags_info` versus
`travel_plan`); the overlap on `next` occurs only when both degrade on a
missing `extracted_text`. -/
theorem branch_disjoint_c2 (b t p : PyVal) (extracted_text : Option String)
    (h : truthyStr extracted_text = true) :
    List.Disjoint
      (updateKeys (BasicInfoAgent.execute b t extracted_text))
      (updateKeys (PlanAgent.execute p extracted_text)) := by
  intro a ha hb
  simp [BasicInfoAgent.execute, PlanAgent.execute, updateKeys, h] at ha hb
  rcases ha with ha | ha <;> simp [ha] at hb

/-- Witness for `branch_disjoint_c2` on a concrete extracted text. -/
theorem branch_disjoint_c2_witness :
    List.Disjoint
      (updateKeys (BasicInfoAgent.execute (PyVal.obj "basic") (PyVal.obj "tags")
        (Option.some "3-day trip to Paris")))
      (updateKeys (PlanAgent.execute (PyVal.obj "plan")
        (Option.some "3-day trip to Paris"))) :=
  branch_disjoint_c2 (PyVal.obj "basic") (PyVal.obj "tags") (PyVal.obj "plan")
    (Option.some "3-day trip to Paris") (by decide)

/-! ## Output validator / repairer (`output_validator.py`)

The module defines `validate_json` and `repair_json_with_llm` twice; the
later definitions (lines 72-127) shadow the earlier ones and are the
ones in effect, so they are the ones embedded here.  `json.loads` is an
external collaborator, modelled by a `loads` parameter returning either
the parsed object or the exception message. -/

/-- Python `str.strip()` on the character list of a string: drop
whitespace from both ends.  (Defined on `List Char` because Lean's
built-in `String` operations do not reduce in the kernel.) -/
def stripChars (s : List Char) : List Char :=
  ((s.dropWhile Char.isWhitespace).reverse.dropWhile Char.isWhitespace).reverse

/-- Python `str.strip()`. -/
def pyStrip (s : String) : String := String.mk (stripChars s.data)

/-- Index of the first occurrence of the pattern `sep` in a character
list, if any. -/
def subFind (sep : List Char) : List Char → Option Nat
  | [] => if sep.isEmpty then Option.some 0 else Option.none
  | c :: rest =>
    if sep.isPrefixOf (c :: rest) then Option.some 0
    else (subFind sep rest).map (· + 1)

/-- Python `s.startswith(pre)`. -/
def pyStartsWith (s pre : String) : Bool := pre.data.isPrefixOf s.data

/-- Python `s.split(sep, 2)`: cut at the first two occurrences of `sep`,
leaving the remainder (later occurrences included) in the third part. -/
def pySplit2 (sep s : String) : List String :=
  match subFind sep.data s.data with
  | Option.none => [s]
  | Option.some i =>
    let a := String.mk (s.data.take i)
    let rest1 := s.data.drop (i + sep.data.length)
    match subFind sep.data rest1 with
    | Option.none => [a, String.mk rest1]
    | Option.some j =>
      [a, String.mk (rest1.take j), String.mk (rest1.drop (j + sep.data.length))]

/-- Replace every occurrence of a non-empty pattern; the fuel argument is
a bound on the scan length and is unreachable when it exceeds the input
length. -/
def replaceChars (pat repl : List Char) : Nat → List Char → List Char
  | _, [] => []
  | 0, s => s
  | Nat.succ fuel, c :: rest =>
    if !pat.isEmpty && pat.isPrefixOf (c :: rest) then
      repl ++ replaceChars pat repl fuel (List.drop (pat.length - 1) rest)
    else c :: replaceChars pat repl fuel rest

/-- Python `s.replace(pat, repl)` (all occurrences). -/
def pyReplace (s pat repl : String) : String :=
  String.mk (replaceChars pat.data repl.data (s.data.length + 1) s.data)

/-- Embedding of `_strip_code_fence` (`output_validator.py` lines 72-85):
strip a leading triple-backtick fence (and an optional `json` language
token) from the trimmed text, keeping the content between the first two
fences. -/
def strip_code_fence (text : String) : String :=
  if text.data.isEmpty then text
  else
    let s := pyStrip text
    if pyStartsWith s "```" then
      let parts := pySplit2 "```" s
      if parts.length ≥ 2 then
        let s1 := parts.getD 1 ""
        if pyStartsWith s1 "json" then pyStrip (String.mk (s1.data.drop 4)) else s1
      else s
    else s

/-- Result dict of `validate_json`: `ok` plus either the parsed object or
the error string. -/
structure ValidateResult (J : Type) where
  ok : Bool
  obj : Option J
  error : Option String
deriving DecidableEq, Repr

/-- Embedding of the effective `validate_json` (`output_validator.py`
lines 88-97): strip fences, try `json.loads`, and return a result dict in
both cases (the exception is caught, never propagated). -/
def validate_json {J : Type} (loads : String → Except String J)
    (raw_text : String) : ValidateResult J :=
  match loads (strip_code_fence raw_text) with
  | Except.ok o => { ok := true, obj := Option.some o, error := Option.none }
  | Except.error e => { ok := false, obj := Option.none, error := Option.some e }

/-- C7: `validate_json` always returns a result dict and never raises:
`ok` is true exactly when the fence-stripped input parses, `ok = false`
always comes with an error entry, and a valid JSON payload wrapped in
markdown code fences (````json ... ````) is accepted with `ok = true` and
the parsed object. -/
theorem validate_json_c7 {J : Type} (loads : String → Except String J)
    (raw_text : String) :
    ((validate_json loads raw_text).ok = true ↔
      ∃ o, loads (strip_code_fence raw_text) = Except.ok o) ∧
    ((validate_json loads raw_text).ok = false →
      ∃ e, (validate_json loads raw_text).error = Option.some e) ∧
    (∀ o : J, loads "[1, 2]" = Except.ok o →
      validate_json loads ("```json" ++ "\n[1, 2]\n" ++ "```") =
        { ok := true, obj := Option.some o, error := Option.none }) := by
  refine ⟨?_, ?_, ?_⟩
  · unfold validate_json
    cases h : loads (strip_code_fence raw_text) <;> simp [h]
  · unfold validate_json
    cases h : loads (strip_code_fence raw_text) <;> simp [h]
  · intro o ho
    have hs : strip_code_fence ("```json" ++ "\n[1, 2]\n" ++ "```") = "[1, 2]" := by
      decide
    unfold validate_json
    rw [hs, ho]

/-- Demonstration `json.loads` model accepting exactly the payload
`[1, 2]`, used by witnesses. -/
def loadsDemo : String → Except String Nat := fun s =>
  if s = "[1, 2]" then Except.ok 12 else Except.error "Expecting value"

/-- Witness for `validate_json_c7`: the fenced payload is accepted. -/
theorem validate_json_c7_witness :
    validate_json loadsDemo ("```json" ++ "\n[1, 2]\n" ++ "```") =
      { ok := true, obj := Option.some 12, error := Option.none } :=
  (validate_json_c7 loadsDemo ("```json" ++ "\n[1, 2]\n" ++ "```")).2.2 12 rfl

/-- Outcome of one `llm_client.invoke` call as seen by a caller: either
the call raised, or it returned a dict whose `content` entry is the given
optional string (`Option.none` models a missing/`None` content). -/
inductive LLMReply where
  | raise
  | reply (content : Option String)

/-- Result dict of `repair_json_with_llm`. -/
structure RepairResult (J : Type) where
  ok : Bool
  obj : Option J
  content : Option String
  error : Option String
deriving DecidableEq, Repr

/-- The repair prompt of the effective `repair_json_with_llm`
(`output_validator.py` lines 108-112), built from the text it is given. -/
def repairPromptOf (raw_text : String) : String :=
  "The model returned the following text that is supposed to be valid JSON.\n" ++
  "Please return a corrected JSON object only (no wrapper text).\n\n" ++
  "Response:\n" ++ raw_text

/-- Loop body of the effective `repair_json_with_llm` (lines 107-126).
`attempt` is the 1-based loop index, `rem` the number of loop iterations
still allowed (`max_attempts + 1 - attempt`), and `prompts` accumulates
every prompt sent to the gateway, in order.  Note the source never
reassigns `raw_text` inside this loop. -/
def repairGo {J : Type} (loads : String → Except String J)
    (responses : Nat → LLMReply) (raw_text : String) :
    Nat → Nat → List String → RepairResult J × List String
  | _, 0, prompts =>
    ({ ok := false, obj := Option.none, content := Option.none,
       error := Option.some "repair attempts failed" }, prompts)
  | attempt, Nat.succ rem, prompts =>
    match responses attempt with
    | LLMReply.raise =>
      repairGo loads responses raw_text (attempt + 1) rem
        (prompts ++ [repairPromptOf raw_text])
    | LLMReply.reply c =>
      if truthyStr c = false then
        repairGo loads responses raw_text (attempt + 1) rem
          (prompts ++ [repairPromptOf raw_text])
      else
        if (validate_json loads (c.getD "")).ok then
          ({ ok := true, obj := (validate_json loads (c.getD "")).obj,
             content := c, error := Option.none },
            prompts ++ [repairPromptOf raw_text])
        else
          repairGo loads responses raw_text (attempt + 1) rem
            (prompts ++ [repairPromptOf raw_text])

/-- Embedding of the effective `repair_json_with_llm`
(`output_validator.py` lines 100-127).  Returns the result dict together
with the trace of repair prompts sent to the gateway. -/
def repair_json_with_llm {J : Type} (loads : String → Except String J)
    (responses : Nat → LLMReply) (raw_text : String) (max_attempts : Nat) :
    RepairResult J × List String :=
  repairGo loads responses raw_text 1 max_attempts []

/-- A `json.loads` model under which nothing parses. -/
def loadsNever : String → Except String Unit := fun _ =>
  Except.error "Expecting value"

/-- A gateway that answers every repair attempt with the same
still-malformed text. -/
def stillBadReplies : Nat → LLMReply := fun _ =>
  LLMReply.reply (Option.some "STILL BAD")

/-- C6 counterexample: with two attempts against a gateway that returns
the still-malformed text `STILL BAD`, both repair prompts are built from
the original `ORIGINAL` input — the second prompt is not built from the
previous attempt's output, contradicting the claim that the fed text
changes to the last returned content. -/
theorem repair_prompt_c6_counterexample :
    (repair_json_with_llm loadsNever stillBadReplies "ORIGINAL" 2).2 =
      [repairPromptOf "ORIGINAL", repairPromptOf "ORIGINAL"] ∧
    repairPromptOf "ORIGINAL" ≠ repairPromptOf "STILL BAD" := by
  decide

/-- Helper for `repair_prompt_c6`: every prompt the loop appends is the
one built from the fixed `raw_text` argument. -/
theorem repairGo_prompts_fixed {J : Type} (loads : String → Except String J)
    (responses : Nat → LLMReply) (raw_text : String) :
    ∀ (rem attempt : Nat) (prompts : List String),
      (∀ p ∈ prompts, p = repairPromptOf raw_text) →
      ∀ p ∈ (repairGo loads responses raw_text attempt rem prompts).2,
        p = repairPromptOf raw_text := by
  intro rem
  induction rem with
  | zero =>
    intro attempt prompts hp p hmem
    exact hp p hmem
  | succ rem ih =>
    intro attempt prompts hp p hmem
    have hp2 : ∀ q ∈ prompts ++ [repairPromptOf raw_text],
        q = repairPromptOf raw_text := by
      intro q hq
      rcases List.mem_append.mp hq with h | h
      · exact hp q h
      · simpa using h
    rw [repairGo] at hmem
    cases hresp : responses attempt with
    | raise =>
      rw [hresp] at hmem
      exact ih (attempt + 1) _ hp2 p hmem
    | reply c =>
      rw [hresp] at hmem
      replace hmem : p ∈
          (if truthyStr c = false then
            repairGo loads responses raw_text (attempt + 1) rem
              (prompts ++ [repairPromptOf raw_text])
          else
            if (validate_json loads (c.getD "")).ok then
              ({ ok := true, obj := (validate_json loads (c.getD "")).obj,
                 content := c, error := Option.none },
                prompts ++ [repairPromptOf raw_text])
            else
              repairGo loads responses raw_text (attempt + 1) rem
                (prompts ++ [repairPromptOf raw_text])).2 := hmem
      by_cases hc : truthyStr c = false
      · rw [if_pos hc] at hmem
        exact ih (attempt + 1) _ hp2 p hmem
      · rw [if_neg hc] at hmem
        by_cases hok : ((validate_json loads (c.getD "")).ok : Prop)
        · rw [if_pos hok] at hmem
          exact hp2 p hmem
        · rw [if_neg hok] at hmem
          exact ih (attempt + 1) _ hp2 p hmem

/-- C6 (amended): in the effective `repair_json_with_llm`, the repair
prompt is built from the original `raw_text` on every attempt — the text
fed to the model never changes across attempts (the feedback of the
previous attempt's output exists only in the earlier, shadowed revision
of the function). -/
theorem repair_prompt_c6 {J : Type} (loads : String → Except String J)
    (responses : Nat → LLMReply) (raw_text : String) (max_attempts : Nat) :
    ∀ p ∈ (repair_json_with_llm loads responses raw_text max_attempts).2,
      p = repairPromptOf raw_text := by
  intro p hmem
  exact repairGo_prompts_fixed loads responses raw_text max_attempts 1 []
    (by intro q hq; cases hq) p hmem

/-- Witness for `repair_prompt_c6`: the second prompt actually sent in
the concrete two-attempt run is the one built from `ORIGINAL`. -/
theorem repair_prompt_c6_witness :
    (repair_json_with_llm loadsNever stillBadReplies "ORIGINAL" 2).2.getD 1 "" =
      repairPromptOf "ORIGINAL" :=
  repair_prompt_c6 loadsNever stillBadReplies "ORIGINAL" 2 _ (by decide)

/-! ## Classification agent (`classification.py`) -/

/-- `ClassificationAgent.MANAGED_CRITERIA` (lines 24-31). -/
def MANAGED_CRITERIA : List String :=
  ["cancellation_policy", "contact_info", "inclusions_exclusions", "services",
   "payment_terms", "pricing"]

/-- The structural fallback dict built by the bare `except:` handler of
`ClassificationAgent.classify` (lines 67-74). -/
def classifyFallback : PyDict PyVal := fun k =>
  if k = "classification_type" then Option.some (PyVal.str "unmanaged")
  else if k = "found_criteria" then Option.some (PyVal.listStr [])
  else if k = "missing_criteria" then Option.some (PyVal.listStr MANAGED_CRITERIA)
  else if k = "confidence" then Option.some (PyVal.str "low")
  else if k = "reason" then Option.some (PyVal.str "Unable to parse classification")
  else Option.none

/-- Embedding of `ClassificationAgent.classify` (`classification.py`
lines 46-74).  `respContent` is `resp.get("content")` of the gateway
response; `repairResponses` feeds the repair pass (`max_attempts = 1`).
After validation and repair both fail, the source tries a bare
`json.loads` on the fence-stripped content; its exception is caught by
the bare `except:` which returns the fallback dict. -/
def ClassificationAgent.classify (loads : String → Except String (PyDict PyVal))
    (repairResponses : Nat → LLMReply) (respContent : Option String) : PyDict PyVal :=
  let content := pyStrip (respContent.getD "")
  let parsed := validate_json loads content
  if parsed.ok then parsed.obj.getD emptyDict
  else
    let repair := (repair_json_with_llm loads repairResponses content 1).1
    if repair.ok then repair.obj.getD emptyDict
    else
      match loads (pyReplace (pyReplace content "```json" "") "```" "") with
      | Except.ok o => o
      | Except.error _ => classifyFallback

/-- Embedding of `ClassificationAgent.execute` (`classification.py`
lines 76-94): reads `type` and `Explanation` from the classify result,
defaulting to `unmanaged` and the empty string. -/
def ClassificationAgent.execute (loads : String → Except String (PyDict PyVal))
    (repairResponses : Nat → LLMReply) (respContent : Option String) :
    List (String × PyVal) :=
  let result := ClassificationAgent.classify loads repairResponses respContent
  let classification_type := (result "type").getD (PyVal.str "unmanaged")
  let reason := (result "Explanation").getD (PyVal.str "")
  [("classification_type", classification_type), ("classification_reason", reason)]

/-- A `json.loads` model for classification under which nothing parses. -/
def loadsNeverDict : String → Except String (PyDict PyVal) := fun _ =>
  Except.error "Expecting value"

/-- A gateway whose repair attempt also returns non-JSON text. -/
def c3Replies : Nat → LLMReply := fun _ =>
  LLMReply.reply (Option.some "still not json")

/-- C3: evaluation of `ClassificationAgent.execute` at a response that is
not valid JSON (and whose repair pass also fails).  The update does carry
`classification_type = "unmanaged"` and does not raise, but
`classification_reason` is the EMPTY string, not a non-empty generic
reason: the fallback dict stores its reason under the key `reason` (and
its type under `classification_type`), while `execute` reads the keys
`Explanation` and `type`, so the generic reason the fallback builds is
dropped. -/
theorem classification_c3_code_bug :
    ClassificationAgent.execute loadsNeverDict c3Replies
        (Option.some "this is not json") =
      [("classification_type", PyVal.str "unmanaged"),
       ("classification_reason", PyVal.str "")] ∧
    ClassificationAgent.classify loadsNeverDict c3Replies
        (Option.some "this is not json") "reason" =
      Option.some (PyVal.str "Unable to parse classification") := by
  exact ⟨rfl, rfl⟩

/-! ## LLM gateway (`llm_client.py`)

The module defines class `LLMClient` twice; the later definition (lines
89-168) shadows the first and is the effective one.  Its `invoke`
defaults to `max_retries = 2` and `backoff = True`. -/

/-- A raw response object of the underlying `llm.invoke` call, with the
attributes the wrapper reads (`Option.none` models a missing or `None`
attribute). -/
structure RawResp where
  content : Option String
  text : Option String
  response_metadata : Option (List (String × String))
deriving DecidableEq, Repr

/-- The return dict of a successful `invoke` (lines 126-128): `content`
is the response's `content` attribute, falling back to `text`;
`metadata` is `response_metadata or` the empty dict. -/
def mkReturn (r : RawResp) : Option String × List (String × String) :=
  (r.content.orElse fun _ => r.text, r.response_metadata.getD [])

/-- The observable outcome of one `LLMClient.invoke` call: how many
attempts the loop made, the backoff sleeps (in seconds, in order), and
either the returned content/metadata dict or `Option.none` for a
re-raise of the final exception. -/
structure InvokeResult where
  attempts : Nat
  sleeps : List Nat
  outcome : Option (Option String × List (String × String))
deriving DecidableEq, Repr

/-- The retry loop of the effective `LLMClient.invoke` (`llm_client.py`
lines 115-137).  `llm k` is the underlying model call's outcome on the
k-th attempt (`Option.none` = raised); `rem` counts the retries still
allowed (`max_retries + 1 - attempt`), so `rem = 0` is exactly the
source's `attempt > max_retries` re-raise condition. -/
def invokeGo (llm : Nat → Option RawResp) (backoff : Bool) :
    Nat → Nat → List Nat → InvokeResult
  | attempt, rem, sleeps =>
    match llm attempt with
    | Option.some r => ⟨attempt, sleeps, Option.some (mkReturn r)⟩
    | Option.none =>
      match rem with
      | 0 => ⟨attempt, sleeps, Option.none⟩
      | Nat.succ rem2 =>
        invokeGo llm backoff (attempt + 1) rem2
          (sleeps ++ [if backoff then min (2 ^ attempt) 30 else 1])

/-- Embedding of the effective `LLMClient.invoke` (`llm_client.py` lines
103-137): attempts start at 1 and `max_retries` further attempts are
allowed after the first. -/
def LLMClient.invoke (llm : Nat → Option RawResp) (max_retries : Nat)
    (backoff : Bool) : InvokeResult :=
  invokeGo llm backoff 1 max_retries []

/-- The backoff sleeps after failed attempts `a, a+1, ..., a+cnt-1`:
`min(2^k, 30)` seconds after failed attempt `k`. -/
def backoffSleeps (a cnt : Nat) : List Nat :=
  (List.range cnt).map fun i => min (2 ^ (a + i)) 30

theorem backoffSleeps_succ (a cnt : Nat) :
    backoffSleeps a (cnt + 1) = min (2 ^ a) 30 :: backoffSleeps (a + 1) cnt := by
  unfold backoffSleeps
  rw [List.range_succ_eq_map]
  simp only [List.map_cons, List.map_map]
  congr 1
  apply List.map_congr_left
  intro i _
  have h : a + (i + 1) = a + 1 + i := by omega
  simp [Function.comp_apply, h]

/-- If every attempt fails, the loop runs through all remaining attempts,
sleeping after each failed attempt except the last, and re-raises. -/
theorem invokeGo_all_fail (llm : Nat → Option RawResp)
    (hfail : ∀ k, llm k = Option.none) :
    ∀ (rem attempt : Nat) (sleeps : List Nat),
      invokeGo llm true attempt rem sleeps =
        ⟨attempt + rem, sleeps ++ backoffSleeps attempt rem, Option.none⟩ := by
  intro rem
  induction rem with
  | zero =>
    intro attempt sleeps
    rw [invokeGo, hfail]
    simp [backoffSleeps]
  | succ rem2 ih =>
    intro attempt sleeps
    have harith : attempt + 1 + rem2 = attempt + (rem2 + 1) := by omega
    rw [invokeGo, hfail, ih (attempt + 1), backoffSleeps_succ, harith]
    simp

/-- If the first success is at attempt `j` within the allowed window, the
loop returns at attempt `j` with the sleeps of the failed attempts before
it and the content/metadata dict of the successful response. -/
theorem invokeGo_first_success (llm : Nat → Option RawResp) (j : Nat)
    (r : RawResp) (hj : llm j = Option.some r) :
    ∀ (rem attempt : Nat) (sleeps : List Nat),
      (∀ m, attempt ≤ m → m < j → llm m = Option.none) →
      attempt ≤ j → j ≤ attempt + rem →
      invokeGo llm true attempt rem sleeps =
        ⟨j, sleeps ++ backoffSleeps attempt (j - attempt),
          Option.some (mkReturn r)⟩ := by
  intro rem
  induction rem with
  | zero =>
    intro attempt sleeps hbefore hle hub
    have hja : j = attempt := by omega
    subst hja
    rw [invokeGo, hj]
    simp [backoffSleeps]
  | succ rem2 ih =>
    intro attempt sleeps hbefore hle hub
    by_cases hcase : attempt = j
    · subst hcase
      rw [invokeGo, hj]
      simp [backoffSleeps]
    · have hlt : attempt < j := by omega
      rw [invokeGo, hbefore attempt (le_refl attempt) hlt]
      rw [ih (attempt + 1) _ (fun m h1 h2 => hbefore m (by omega) h2) (by omega)
        (by omega)]
      have hsub : j - attempt = (j - (attempt + 1)) + 1 := by omega
      rw [hsub, backoffSleeps_succ]
      simp

/-- C5: with `max_retries = n`, if the underlying model call raises on
every attempt then `invoke` makes exactly `n + 1` attempts, sleeping
`min(2^k, 30)` seconds after failed attempt `k` for `k = 1..n`, and then
re-raises; and if some attempt `j ≤ n + 1` is the first to succeed,
`invoke` returns the content/metadata dict built from that response. -/
theorem llm_invoke_c5 (llm : Nat → Option RawResp) (n : Nat) :
    ((∀ k, llm k = Option.none) →
      LLMClient.invoke llm n true =
        ⟨n + 1, backoffSleeps 1 n, Option.none⟩) ∧
    (∀ j r, llm j = Option.some r →
      (∀ m, 1 ≤ m → m < j → llm m = Option.none) → 1 ≤ j → j ≤ n + 1 →
      LLMClient.invoke llm n true =
        ⟨j, backoffSleeps 1 (j - 1), Option.some (mkReturn r)⟩) := by
  constructor
  · intro hfail
    have h1n : 1 + n = n + 1 := by omega
    rw [LLMClient.invoke, invokeGo_all_fail llm hfail, h1n]
    simp
  · intro j r hj hbefore h1 hub
    rw [LLMClient.invoke,
      invokeGo_first_success llm j r hj n 1 [] (fun m hm1 hm2 => hbefore m hm1 hm2)
        h1 (by omega)]
    simp

/-- A model call that succeeds only on the second attempt. -/
def llmOkAt2 : Nat → Option RawResp := fun k =>
  if k = 2 then
    Option.some { content := Option.some "ok", text := Option.none,
                  response_metadata := Option.some [("model", "m")] }
  else Option.none

/-- Witness for `llm_invoke_c5` with `max_retries = 2`: all attempts
failing gives 3 attempts with sleeps 2s and 4s and a re-raise; a first
success on attempt 2 returns its content and metadata after one 2s
sleep. -/
theorem llm_invoke_c5_witness :
    LLMClient.invoke (fun _ => Option.none) 2 true =
      ⟨3, [2, 4], Option.none⟩ ∧
    LLMClient.invoke llmOkAt2 2 true =
      ⟨2, [2], Option.some (Option.some "ok", [("model", "m")])⟩ := by
  constructor
  · exact (llm_invoke_c5 (fun _ => Option.none) 2).1 fun k => rfl
  · exact (llm_invoke_c5 llmOkAt2 2).2 2
      { content := Option.some "ok", text := Option.none,
        response_metadata := Option.some [("model", "m")] }
      rfl (by intro m h1 h2; interval_cases m; rfl) (by omega) (by omega)

/-! ## Validation agent (`validation.py`) -/

/-- `ValidationAgent.MAX_ATTEMPTS` (`validation.py` line 17): the
configured attempts cap. -/
def ValidationAgent.MAX_ATTEMPTS : Nat := 0

/-- The values `ValidationAgent.execute` reads out of the parsed
`check_completeness` result dict (lines 76-79), after the `.get` calls
with their defaults: `has_destination` is the truthiness of
`validation_result.get("has_destination", [])` (default `[]` is falsy),
`is_validated` of `.get("is_validated", False)`. -/
structure CompletenessResult where
  has_destination : Bool
  is_validated : Bool
  failed_reason : String
  validation_prompt : String
deriving DecidableEq, Repr

/-- The partial state update returned by `ValidationAgent.execute`:
optional fields model keys that some return dicts omit. -/
structure ValidationUpdate where
  validated : Bool
  validation_attempts : Nat
  validation_prompt : String
  failed_reason : Option String
  missing_fields : Option (List String)
  next : String
deriving DecidableEq, Repr

/-- Embedding of `ValidationAgent.execute` (`validation.py` lines
68-116), parameterized over the parsed completeness result. -/
def ValidationAgent.execute (vr : CompletenessResult)
    (validation_attempts : Nat) : ValidationUpdate :=
  if vr.has_destination && vr.is_validated then
    { validated := true, validation_attempts := validation_attempts + 1,
      validation_prompt := "", failed_reason := Option.some "",
      missing_fields := Option.some [], next := "classification" }
  else if validation_attempts ≥ ValidationAgent.MAX_ATTEMPTS then
    if vr.has_destination then
      { validated := true, validation_attempts := validation_attempts + 1,
        validation_prompt := "", failed_reason := Option.some "",
        missing_fields := Option.none, next := "classification" }
    else
      { validated := false, validation_attempts := validation_attempts + 1,
        validation_prompt := "No Destination", failed_reason := Option.none,
        missing_fields := Option.none, next := "classification" }
  else
    { validated := false, validation_attempts := validation_attempts + 1,
      validation_prompt := vr.validation_prompt,
      failed_reason := Option.some vr.failed_reason,
      missing_fields := Option.none, next := "extraction" }

/-- C8 counterexample: at the cap (`MAX_ATTEMPTS = 0`, attempts `0`) with
the destination entirely absent, the returned update routes the graph to
the Classification node (`next = "classification"`), so it is false that
the node does not direct the graph onward. -/
theorem validation_cap_c8_counterexample :
    (ValidationAgent.execute
      { has_destination := false, is_validated := false, failed_reason := "",
        validation_prompt := "" } 0).next = "classification" ∧
    0 ≥ ValidationAgent.MAX_ATTEMPTS := by
  exact ⟨rfl, Nat.le_refl 0⟩

/-- C8 (amended): once `validation_attempts` has reached the cap and the
parsed result has no destination, `execute` returns `validated = false`
with `validation_prompt = "No Destination"` but still routes onward with
`next = "classification"` — there is no termination signal in this
branch. -/
theorem validation_cap_c8 (vr : CompletenessResult) (attempts : Nat)
    (hd : vr.has_destination = false)
    (hcap : attempts ≥ ValidationAgent.MAX_ATTEMPTS) :
    ValidationAgent.execute vr attempts =
      { validated := false, validation_attempts := attempts + 1,
        validation_prompt := "No Destination", failed_reason := Option.none,
        missing_fields := Option.none, next := "classification" } := by
  unfold ValidationAgent.execute
  rw [hd]
  simp [hcap]

/-- Witness for `validation_cap_c8` at the counterexample's input. -/
theorem validation_cap_c8_witness :
    ValidationAgent.execute
      { has_destination := false, is_validated := false, failed_reason := "",
        validation_prompt := "" } 0 =
      { validated := false, validation_attempts := 1,
        validation_prompt := "No Destination", failed_reason := Option.none,
        missing_fields := Option.none, next := "classification" } :=
  validation_cap_c8
    { has_destination := false, is_validated := false, failed_reason := "",
      validation_prompt := "" } 0 rfl (Nat.le_refl 0)

/-! ## Extraction agent (`extraction.py`) -/

/-- The Python exceptions the embedded nodes can raise. -/
inductive PyExc where
  | fileNotFound (path : String)
  | runtimeError (msg : String)
  | httpTimeout
  | unboundLocal (name : String)
deriving DecidableEq, Repr

/-- `str(e)` of an embedded exception, as interpolated into messages. -/
def pyExcMessage : PyExc → String
  | PyExc.fileNotFound p => "File not found: " ++ p
  | PyExc.runtimeError m => m
  | PyExc.httpTimeout => "Timed out while trying to upload the file."
  | PyExc.unboundLocal n =>
      "cannot access local variable " ++ n ++
      " where it is not associated with a value"

/-- The external calls `ExtractionAgent` can make, in order. -/
inductive ExtractCall where
  | textInvoke (message : String)
  | urlInvoke (full_prompt : String)
  | uploadFile (path : String)
  | generateContent (full_prompt : String)
deriving DecidableEq, Repr

/-- Terminal outcome of the upload-poll loop (lines 116-127); the
real-time 2-second polling and the 180-second clock are abstracted to
which terminal condition the loop reaches. -/
inductive PollResult where
  | active
  | failed
  | timeout
deriving DecidableEq, Repr

/-- External collaborators of the extraction node: the fixed instruction
prompt (`self.prompt`, whose wording is out of the spec's scope), the
text LLM, the URL-path response, the filesystem, the upload poll outcome
and the multimodal generate response. -/
structure ExtractEnv where
  prompt : String
  textResp : String → String
  urlResp : String
  pathExists : String → Bool
  pollOutcome : PollResult
  genText : String

/-- The slice of the shared state `ExtractionAgent.execute` reads. -/
structure ExtractionState where
  raw_input : Option String
  input_file_path : Option String
  is_url : Bool
  validation_prompt : Option String

/-- Embedding of `ExtractionAgent.extract_from_text` (lines 70-75): one
text-LLM call whose message is the fixed prompt with the raw text
appended after `Text To Analyze from : `.  Returns the response content
and the call trace. -/
def ExtractionAgent.extract_from_text (env : ExtractEnv) (text : String) :
    String × List ExtractCall :=
  (env.textResp (env.prompt ++ "Text To Analyze from : " ++ text),
   [ExtractCall.textInvoke (env.prompt ++ "Text To Analyze from : " ++ text)])

/-- The default task prompt of `extract_from_input` (lines 92-94). -/
def defaultTaskPrompt : String :=
  "Extract key travel information (dates, destinations, travelers, etc.) from this file."

/-- Embedding of `ExtractionAgent.extract_from_input` (lines 77-131):
URL inputs go through the text-invoke path with multimodal content;
file-path inputs require the file to exist, are uploaded and polled, and
go through `generate_content`.  Returns `(extracted text, value of the
`uploaded_file` variable)` or the raised exception, with the call
trace. -/
def ExtractionAgent.extract_from_input (env : ExtractEnv) (st : ExtractionState)
    (file_input : String) : Except PyExc (String × PyVal) × List ExtractCall :=
  let task_prompt :=
    match st.validation_prompt with
    | Option.some p => if p.data.isEmpty then defaultTaskPrompt else p
    | Option.none => defaultTaskPrompt
  let full_prompt := env.prompt ++ "\n\n" ++ task_prompt
  if st.is_url then
    (Except.ok (env.urlResp, PyVal.none), [ExtractCall.urlInvoke full_prompt])
  else if env.pathExists file_input = false then
    (Except.error (PyExc.fileNotFound file_input), [])
  else
    match env.pollOutcome with
    | PollResult.failed =>
      (Except.error (PyExc.runtimeError "File processing failed."),
       [ExtractCall.uploadFile file_input])
    | PollResult.timeout =>
      (Except.error PyExc.httpTimeout, [ExtractCall.uploadFile file_input])
    | PollResult.active =>
      (Except.ok (env.genText, PyVal.obj "uploaded_file"),
       [ExtractCall.uploadFile file_input, ExtractCall.generateContent full_prompt])

/-- Embedding of `ExtractionAgent.execute` (lines 133-151).  In the
raw-text and no-input branches, `extracted_text` is computed first (so
the text-LLM call does run), but building the return dict then evaluates
the local variable `uploaded_file`, which is only assigned in the
file-path branch: Python raises `UnboundLocalError` there. -/
def ExtractionAgent.execute (env : ExtractEnv) (st : ExtractionState) :
    Except PyExc (List (String × PyVal)) × List ExtractCall :=
  if truthyStr st.input_file_path then
    match ExtractionAgent.extract_from_input env st (st.input_file_path.getD "") with
    | (Except.ok (extracted_text, uploaded_file), calls) =>
      (Except.ok [("extracted_text", PyVal.str extracted_text),
                  ("input_file", uploaded_file)], calls)
    | (Except.error e, calls) => (Except.error e, calls)
  else if truthyStr st.raw_input then
    (Except.error (PyExc.unboundLocal "uploaded_file"),
     (ExtractionAgent.extract_from_text env (st.raw_input.getD "")).2)
  else
    (Except.error (PyExc.unboundLocal "uploaded_file"), [])

/-- C4: on a raw-text-only state, exactly the raw-text extraction path
executes — the single gateway call is the text invoke with the raw text
appended to the fixed instruction prompt, and neither the upload nor the
URL path is touched — but `execute` then RAISES `UnboundLocalError`
(`uploaded_file` is only assigned in the file-path branch) instead of
returning the narrative in `extracted_text` as the claim states. -/
theorem extraction_raw_text_c4 (env : ExtractEnv) (st : ExtractionState)
    (raw : String) (hfp : truthyStr st.input_file_path = false)
    (hraw : st.raw_input = Option.some raw) (hne : raw.data.isEmpty = false) :
    ExtractionAgent.execute env st =
      (Except.error (PyExc.unboundLocal "uploaded_file"),
       [ExtractCall.textInvoke (env.prompt ++ "Text To Analyze from : " ++ raw)]) := by
  unfold ExtractionAgent.execute
  rw [hfp, hraw]
  simp [truthyStr, hne, ExtractionAgent.extract_from_text]

/-- Witness for `extraction_raw_text_c4` at a concrete raw-text state. -/
theorem extraction_raw_text_c4_witness :
    ExtractionAgent.execute
      { prompt := "EXTRACTION PROMPT ", textResp := fun _ => "a Paris narrative",
        urlResp := "url narrative", pathExists := fun _ => false,
        pollOutcome := PollResult.active, genText := "file narrative" }
      { raw_input := Option.some "3-day trip to Paris",
        input_file_path := Option.none, is_url := false,
        validation_prompt := Option.none } =
      (Except.error (PyExc.unboundLocal "uploaded_file"),
       [ExtractCall.textInvoke
         ("EXTRACTION PROMPT " ++ "Text To Analyze from : " ++ "3-day trip to Paris")]) :=
  extraction_raw_text_c4
    { prompt := "EXTRACTION PROMPT ", textResp := fun _ => "a Paris narrative",
      urlResp := "url narrative", pathExists := fun _ => false,
      pollOutcome := PollResult.active, genText := "file narrative" }
    { raw_input := Option.some "3-day trip to Paris",
      input_file_path := Option.none, is_url := false,
      validation_prompt := Option.none }
    "3-day trip to Paris" rfl rfl (by decide)

/-! ## Workflow start (`workflow.py`) and Eval agent (`eval.py`) -/

/-- The initial workflow state built by `start_agentic_process`
(`workflow.py` lines 163-182): the input string — a file path or, for
`is_url = True`, the URL itself — is stored under `input_file_path`. -/
structure InitState where
  input_file_path : String
  is_url : Bool

/-- Embedding of the state construction of `start_agentic_process`
(line 174); the opaque `session_id` is omitted. -/
def start_agentic_process_init (file_input : String) (is_url : Bool) : InitState :=
  { input_file_path := file_input, is_url := is_url }

/-- Truthiness of `state.get("experience", \x7b\x7d)`: absent and the
empty dict are falsy. -/
def truthyDict (d : Option (List (String × PyVal))) : Bool :=
  match d with
  | Option.none => false
  | Option.some l => !l.isEmpty

/-- The external calls `EvalAgent` can make. -/
inductive EvalCall where
  | uploadFile (path : String)
  | getFileState
  | generateContent
  | textInvoke
deriving DecidableEq, Repr

/-- External collaborators of the eval node: the filesystem, the upload
poll outcome, the multimodal and text model outcomes (exception message
or returned text) and `json.loads`. -/
structure EvalEnv where
  pathExists : String → Bool
  pollOutcome : PollResult
  genOutcome : Except String String
  textOutcome : Except String String
  loads : String → Except String (PyDict PyVal)

/-- The slice of the shared state `EvalAgent.execute` reads.
`experience` is an association list so that the source's emptiness test
(`if not experience`) is expressible; `input_file` is the cached upload
handle. -/
structure EvalState where
  experience : Option (List (String × PyVal))
  raw_input : Option String
  input_file_path : Option String
  input_file : Option String

/-- Embedding of `EvalAgent._error_fallback` (`eval.py` lines 234-243). -/
def EvalAgent.error_fallback (message : String) : PyDict PyVal := fun k =>
  if k = "error" then Option.some (PyVal.str ("Evaluation failed: " ++ message))
  else if k = "hallucination" then Option.some (PyVal.float 0)
  else if k = "accuracy" then Option.some (PyVal.float 0)
  else if k = "conciseness" then Option.some (PyVal.float 0)
  else if k = "structure_compliance" then Option.some (PyVal.str "Fail")
  else if k = "overall_score" then Option.some (PyVal.int 0)
  else if k = "validation_reason" then
    Option.some (PyVal.str "Evaluation failed due to runtime error")
  else Option.none

/-- The response-content cleanup both eval paths perform (lines 158-161
and 206-209): strip, then drop ```json fences if present. -/
def evalCleanContent (t : String) : String :=
  let content := pyStrip t
  if pyStartsWith content "```json" then
    pyStrip (pyReplace (pyReplace content "```json" "") "```" "")
  else content

/-- Embedding of `EvalAgent.evaluate_from_text` (lines 136-163): one
text-LLM call inside a try block whose handler returns the error
fallback, so this path never raises. -/
def EvalAgent.evaluate_from_text (env : EvalEnv) : PyDict PyVal × List EvalCall :=
  match env.textOutcome with
  | Except.error e => (EvalAgent.error_fallback e, [EvalCall.textInvoke])
  | Except.ok t =>
    match env.loads (evalCleanContent t) with
    | Except.ok o => (o, [EvalCall.textInvoke])
    | Except.error e => (EvalAgent.error_fallback e, [EvalCall.textInvoke])

/-- Embedding of `EvalAgent.evaluate_from_file` (lines 165-211).  A
missing file raises `FileNotFoundError` before any upload or model call;
the cached `input_file` handle is reused when present, otherwise the
file is re-uploaded; the real-time poll loop is abstracted to its
terminal outcome; the model call and JSON parse sit in a try block whose
handler returns the error fallback. -/
def EvalAgent.evaluate_from_file (env : EvalEnv) (st : EvalState) :
    Except PyExc (PyDict PyVal) × List EvalCall :=
  match st.input_file_path with
  | Option.none =>
    (Except.error (PyExc.runtimeError "stat: path should be string, not NoneType"), [])
  | Option.some fp =>
    if env.pathExists fp = false then
      (Except.error (PyExc.fileNotFound fp), [])
    else
      let uploadCalls :=
        if st.input_file.isSome then [] else [EvalCall.uploadFile fp]
      match env.pollOutcome with
      | PollResult.failed =>
        (Except.error (PyExc.runtimeError "File processing failed."),
         uploadCalls ++ [EvalCall.getFileState])
      | PollResult.timeout =>
        (Except.error PyExc.httpTimeout, uploadCalls ++ [EvalCall.getFileState])
      | PollResult.active =>
        let calls := uploadCalls ++ [EvalCall.getFileState, EvalCall.generateContent]
        match env.genOutcome with
        | Except.error e => (Except.ok (EvalAgent.error_fallback e), calls)
        | Except.ok t =>
          match env.loads (evalCleanContent t) with
          | Except.ok o => (Except.ok o, calls)
          | Except.error e => (Except.ok (EvalAgent.error_fallback e), calls)

/-- Embedding of `EvalAgent.execute` (lines 213-232).  The returned
partial update is the single-key dict mapping `evaluation` to the first
component; the second component is the trace of external calls made. -/
def EvalAgent.execute (env : EvalEnv) (st : EvalState) :
    PyDict PyVal × List EvalCall :=
  if truthyDict st.experience = false then
    (fun k =>
      if k = "error" then Option.some (PyVal.str "No experience data to evaluate")
      else Option.none, [])
  else if truthyStr st.input_file_path then
    match EvalAgent.evaluate_from_file env st with
    | (Except.ok ev, calls) => (ev, calls)
    | (Except.error e, calls) => (EvalAgent.error_fallback (pyExcMessage e), calls)
  else if truthyStr st.raw_input then
    EvalAgent.evaluate_from_text env
  else
    (fun k =>
      if k = "error" then Option.some (PyVal.str "No input provided for evaluation")
      else Option.none, [])

/-- C10: when `experience` is absent or empty, `execute` returns the
record carrying only the key `error = "No experience data to evaluate"`
— no score fields — and performs no external call at all (no model
invocation, no upload, no read of the input locator). -/
theorem eval_empty_experience_c10 (env : EvalEnv) (st : EvalState)
    (h : st.experience = Option.none ∨ st.experience = Option.some []) :
    (EvalAgent.execute env st).2 = [] ∧
    (EvalAgent.execute env st).1 "error" =
      Option.some (PyVal.str "No experience data to evaluate") ∧
    (∀ k, k ≠ "error" → (EvalAgent.execute env st).1 k = Option.none) := by
  have het : truthyDict st.experience = false := by
    rcases h with h | h <;> simp [truthyDict, h]
  refine ⟨?_, ?_, ?_⟩
  · simp [EvalAgent.execute, het]
  · simp [EvalAgent.execute, het]
  · intro k hk
    simp [EvalAgent.execute, het, hk]

/-- A demonstration eval environment on which no path exists and nothing
parses. -/
def evalEnvDemo : EvalEnv :=
  { pathExists := fun _ => false, pollOutcome := PollResult.active,
    genOutcome := Except.ok "", textOutcome := Except.ok "",
    loads := fun _ => Except.error "Expecting value" }

/-- A state whose `experience` is the empty dict. -/
def emptyExpState : EvalState :=
  { experience := Option.some [], raw_input := Option.none,
    input_file_path := Option.some "https://example.com/trip.pdf",
    input_file := Option.none }

/-- Witness for `eval_empty_experience_c10` on the empty experience. -/
theorem eval_empty_experience_c10_witness :
    (EvalAgent.execute evalEnvDemo emptyExpState).2 = [] ∧
    (EvalAgent.execute evalEnvDemo emptyExpState).1 "error" =
      Option.some (PyVal.str "No experience data to evaluate") ∧
    (EvalAgent.execute evalEnvDemo emptyExpState).1 "hallucination" =
      Option.none := by
  obtain ⟨h1, h2, h3⟩ :=
    eval_empty_experience_c10 evalEnvDemo emptyExpState (Or.inr rfl)
  exact ⟨h1, h2, h3 "hallucination" (by decide)⟩

/-- C9: on a run whose input was registered by `start_agentic_process`
with `is_url = True` — so the URL string sits in `input_file_path` and
names no existing local path — `execute` (with a non-empty `experience`)
catches the `FileNotFoundError` from `evaluate_from_file` and returns the
`_error_fallback` record (hallucination 0.0, accuracy 0.0, conciseness
0.0, structure_compliance `Fail`, overall_score 0, plus the error
message) with an empty call trace: no upload and no model call ever
happens, so URL inputs can never receive a real evaluation. -/
theorem eval_url_c9 (env : EvalEnv) (st : EvalState) (url : String)
    (l : List (String × PyVal))
    (hfp : st.input_file_path =
      Option.some (start_agentic_process_init url true).input_file_path)
    (hurl : url.data.isEmpty = false)
    (hexists : env.pathExists url = false)
    (hexp : st.experience = Option.some l) (hl : l.isEmpty = false) :
    EvalAgent.execute env st =
      (EvalAgent.error_fallback ("File not found: " ++ url), []) ∧
    (EvalAgent.execute env st).1 "hallucination" = Option.some (PyVal.float 0) ∧
    (EvalAgent.execute env st).1 "accuracy" = Option.some (PyVal.float 0) ∧
    (EvalAgent.execute env st).1 "conciseness" = Option.some (PyVal.float 0) ∧
    (EvalAgent.execute env st).1 "structure_compliance" =
      Option.some (PyVal.str "Fail") ∧
    (EvalAgent.execute env st).1 "overall_score" = Option.some (PyVal.int 0) ∧
    (EvalAgent.execute env st).1 "error" =
      Option.some (PyVal.str ("Evaluation failed: " ++ ("File not found: " ++ url))) := by
  have hfp2 : st.input_file_path = Option.some url := hfp
  have htr : truthyDict st.experience = false ↔ False := by
    simp [truthyDict, hexp, hl]
  have hts : truthyStr st.input_file_path = true := by
    rw [hfp2]; simp [truthyStr, hurl]
  have hfile : EvalAgent.evaluate_from_file env st =
      (Except.error (PyExc.fileNotFound url), []) := by
    unfold EvalAgent.evaluate_from_file
    rw [hfp2]
    simp [hexists]
  have h0 : EvalAgent.execute env st =
      (EvalAgent.error_fallback ("File not found: " ++ url), []) := by
    unfold EvalAgent.execute
    rw [hfile]
    simp [truthyDict, hexp, hl, hts]
    rfl
  refine ⟨h0, ?_, ?_, ?_, ?_, ?_, ?_⟩ <;> rw [h0] <;> rfl

/-- A state as left by a URL-input run reaching the eval node: the URL in
`input_file_path` and a non-empty combined `experience`. -/
def urlEvalState : EvalState :=
  { experience := Option.some [("plan_type", PyVal.str "unmanaged")],
    raw_input := Option.none,
    input_file_path := Option.some "https://example.com/trip.pdf",
    input_file := Option.none }

/-- Witness for `eval_url_c9` at a concrete URL-input state. -/
theorem eval_url_c9_witness :
    EvalAgent.execute evalEnvDemo urlEvalState =
      (EvalAgent.error_fallback ("File not found: " ++ "https://example.com/trip.pdf"),
        []) :=
  (eval_url_c9 evalEnvDemo urlEvalState "https://example.com/trip.pdf"
    [("plan_type", PyVal.str "unmanaged")] rfl rfl rfl rfl rfl).1

end TravelWorkflow
